import Mathlib

/-!
Verification development for the iftracer-sdk evaluation core
(`iftracer/sdk/evaluation/models.py`, `evaluator.py`, `batch.py`).

The Python code is shallowly embedded as pure Lean functions:

* JSON values are modelled by the inductive `Json`.
* The HTTP transport (`requests.post`) is a parameter of type `Transport`:
  given the endpoint, the JSON payload and the zero-based attempt index it
  either raises a `requests.exceptions.RequestException` or returns an
  `HttpResponse` (status code, body text, parsed JSON body).
* Python exception flow is made explicit with `PyResult`: `ret` is a normal
  return, `requestExc` is a raised `RequestException` (caught by the retry
  loop of `_post_request`), `otherExc` is any other raised exception.
* Every function that can touch the network also returns the ordered list of
  endpoints it POSTed to (one entry per attempt) and the list of back-off
  sleep durations, so that "no network call is made" and "endpoint A is
  called before endpoint B" are stated as facts about those logs.
* Ambient nondeterminism (uuid4 draws, wall-clock readings, the local UTC
  offset) is passed in explicitly through the `Ambient` structure.

Tracing-span side effects (`trace.get_current_span().set_attribute`) are
advisory observability per the spec and are not modelled; they do not affect
any returned value.
-/

namespace IFTracer

/-- JSON values, the shape of request payloads and response bodies. -/
inductive Json where
  | null : Json
  | bool : Bool → Json
  | num : Int → Json
  | str : String → Json
  | arr : List Json → Json
  | obj : List (String × Json) → Json
deriving Repr

/-- `dict.get key` on a JSON object's key/value list. -/
def Json.lookup : List (String × Json) → String → Option Json
  | [], _ => none
  | (k, v) :: rest, key => if k = key then some v else Json.lookup rest key

/-- models.py: `class EvaluationType(Enum)`. -/
inductive EvaluationType where
  | SAFETY : EvaluationType
  | HALLUCINATION_BIAS : EvaluationType
  | EXTERNAL_HALLUCINATION : EvaluationType
deriving Repr, DecidableEq

/-- models.py: the `value` string of each enum member. -/
def EvaluationType.value : EvaluationType → String
  | .SAFETY => "safety"
  | .HALLUCINATION_BIAS => "hallubias"
  | .EXTERNAL_HALLUCINATION => "exterhallu"

/-- Python truthiness of an `Optional[str]`: `None` and `""` are falsy. -/
def optStrFalsy : Option String → Bool
  | none => true
  | some s => s.isEmpty

/-- models.py: `@dataclass class EvaluationRequest` (field order as in source;
`timestamp` is an `int`, falsy exactly when `0`). -/
structure EvaluationRequest where
  prompt : String
  trace_id : String
  timestamp : Int
  response : Option String
  explanation : Option String
  score : Option Int
  project_name : Option String
deriving Repr, DecidableEq

/-- models.py: `EvaluationRequest.__post_init__`.  `genId` is the
`str(uuid.uuid4())` draw and `nowMillis` the
`int(datetime.now().timestamp() * 1000)` reading that the method would make. -/
def EvaluationRequest.postInit (r : EvaluationRequest) (genId : String)
    (nowMillis : Int) : EvaluationRequest :=
  let r1 := if r.trace_id.isEmpty then { r with trace_id := genId } else r
  if r1.timestamp = 0 then { r1 with timestamp := nowMillis } else r1

/-- Constructing an `EvaluationRequest` always runs `__post_init__`. -/
def EvaluationRequest.make (r : EvaluationRequest) (genId : String)
    (nowMillis : Int) : EvaluationRequest :=
  EvaluationRequest.postInit r genId nowMillis

/-- models.py: `@dataclass class EvaluationResponse`. -/
structure EvaluationResponse where
  success : Bool
  data : Option Json
  error_message : Option String
  status_code : Option Int
deriving Repr

/-- models.py: `EvaluationResponse.success_response`. -/
def EvaluationResponse.success_response (d : Json) : EvaluationResponse :=
  { success := true, data := some d, error_message := none, status_code := none }

/-- models.py: `EvaluationResponse.error_response`. -/
def EvaluationResponse.error_response (msg : String) (code : Option Int) :
    EvaluationResponse :=
  { success := false, data := none, error_message := some msg, status_code := code }

/-- models.py: `@dataclass class EvaluationConfig`. -/
structure EvaluationConfig where
  project_name : String
  api_endpoint : String
  api_key : Option String
  username : Option String
  timeout : Int
  retry_attempts : Nat
deriving Repr

/-- models.py: `EvaluationConfig.safety_endpoint`. -/
def EvaluationConfig.safety_endpoint (c : EvaluationConfig) : String :=
  c.api_endpoint ++ "/api/external/v1/evaluation/safety"

/-- models.py: `EvaluationConfig.hallubias_endpoint`. -/
def EvaluationConfig.hallubias_endpoint (c : EvaluationConfig) : String :=
  c.api_endpoint ++ "/api/external/v1/evaluation/bias-hallu"

/-- models.py: `EvaluationConfig.exterhallu_endpoint`. -/
def EvaluationConfig.exterhallu_endpoint (c : EvaluationConfig) : String :=
  c.api_endpoint ++ "/api/external/v1/evaluation/exter-hallu"

/-- An HTTP response as seen by `_process_response`: status code, `.text`,
and the result of `.json()` (`none` models a body that fails to parse). -/
structure HttpResponse where
  status_code : Int
  text : String
  jsonBody : Option Json
deriving Repr

/-- Explicit Python exception flow: a normal return, a raised
`requests.exceptions.RequestException` (the class the retry loop catches),
or any other raised exception. -/
inductive PyResult (α : Type) where
  | ret : α → PyResult α
  | requestExc : String → PyResult α
  | otherExc : String → PyResult α
deriving Repr

/-- Whether a `PyResult` is a raised exception of either kind. -/
def PyResult.isExc {α : Type} : PyResult α → Bool
  | .ret _ => false
  | .requestExc _ => true
  | .otherExc _ => true

/-- What the transport does on a given attempt: raise a
`RequestException` or return a response.  The transport may depend on the
endpoint, the payload, and the zero-based attempt index. -/
inductive TransportBehavior where
  | raises : String → TransportBehavior
  | returns : HttpResponse → TransportBehavior

/-- The pluggable HTTP transport (`requests.post`). -/
def Transport : Type := String → Json → Nat → TransportBehavior

/-- evaluator.py: `Evaluator._process_response`.

On 200 the body is parsed; a parse failure raises a
`requests.exceptions.JSONDecodeError` (a `RequestException`), and a parsed
body that is not a JSON object makes `response_data.get` raise an
`AttributeError`.  4xx and 5xx map to error responses carrying the status
code and the body text; any other code maps to the generic "unexpected
status" error.  `response.close()` has no observable effect here. -/
def processResponse (resp : HttpResponse) : PyResult EvaluationResponse :=
  if resp.status_code = 200 then
    match resp.jsonBody with
    | none => .requestExc "JSONDecodeError"
    | some (Json.obj kvs) =>
        .ret (EvaluationResponse.success_response
          ((Json.lookup kvs "evaluations").getD (Json.obj kvs)))
    | some _ => .otherExc "AttributeError"
  else if 400 ≤ resp.status_code ∧ resp.status_code < 500 then
    .ret (EvaluationResponse.error_response
      ("Client error " ++ toString resp.status_code ++ ": " ++ resp.text)
      (some resp.status_code))
  else if 500 ≤ resp.status_code ∧ resp.status_code < 600 then
    .ret (EvaluationResponse.error_response
      ("Server error " ++ toString resp.status_code ++ ": " ++ resp.text)
      (some resp.status_code))
  else
    .ret (EvaluationResponse.error_response
      ("Unexpected status code " ++ toString resp.status_code ++ ": " ++ resp.text)
      (some resp.status_code))

/-- Outcome of `_post_request`: the returned value (or escaped exception),
the ordered list of endpoints POSTed to (one per transport attempt), and
the back-off sleep durations in seconds, in order. -/
structure PostOutcome where
  result : PyResult EvaluationResponse
  calls : List String
  sleeps : List Nat
deriving Repr

/-- evaluator.py: the `for attempt in range(self.config.retry_attempts)` loop
body of `Evaluator._post_request`.  `fuel` counts the loop iterations still
available (`retry_attempts - attempt` at every call from `postRequest`); when
it reaches zero the loop has ended and the final
"Unknown error occurred during request" return executes.  A raised
`RequestException` (from the transport or from `.json()`) is caught: on the
last attempt it becomes the "failed after N attempts" error response,
otherwise the loop sleeps `2 ** attempt` seconds and retries.  Any other
exception escapes. -/
def postRequestLoop (cfg : EvaluationConfig) (transport : Transport)
    (endpoint : String) (data : Json) : Nat → Nat → PostOutcome
  | _, 0 =>
      { result := .ret (EvaluationResponse.error_response
          "Unknown error occurred during request" none)
        calls := []
        sleeps := [] }
  | attempt, fuel + 1 =>
      match transport endpoint data attempt with
      | .returns resp =>
          match processResponse resp with
          | .ret r => { result := .ret r, calls := [endpoint], sleeps := [] }
          | .otherExc msg =>
              { result := .otherExc msg, calls := [endpoint], sleeps := [] }
          | .requestExc msg =>
              if attempt = cfg.retry_attempts - 1 then
                { result := .ret (EvaluationResponse.error_response
                    ("Request to " ++ endpoint ++ " failed after "
                      ++ toString cfg.retry_attempts ++ " attempts: " ++ msg) none)
                  calls := [endpoint]
                  sleeps := [] }
              else
                let rest := postRequestLoop cfg transport endpoint data (attempt + 1) fuel
                { result := rest.result
                  calls := endpoint :: rest.calls
                  sleeps := 2 ^ attempt :: rest.sleeps }
      | .raises msg =>
          if attempt = cfg.retry_attempts - 1 then
            { result := .ret (EvaluationResponse.error_response
                ("Request to " ++ endpoint ++ " failed after "
                  ++ toString cfg.retry_attempts ++ " attempts: " ++ msg) none)
              calls := [endpoint]
              sleeps := [] }
          else
            let rest := postRequestLoop cfg transport endpoint data (attempt + 1) fuel
            { result := rest.result
              calls := endpoint :: rest.calls
              sleeps := 2 ^ attempt :: rest.sleeps }

/-- evaluator.py: `Evaluator._post_request`. -/
def postRequest (cfg : EvaluationConfig) (transport : Transport)
    (endpoint : String) (data : Json) : PostOutcome :=
  postRequestLoop cfg transport endpoint data 0 cfg.retry_attempts

/-- Python `request.project_name or self.config.project_name`: the request
value when truthy (present and non-empty), else the configured name. -/
def resolveProject (req : EvaluationRequest) (cfg : EvaluationConfig) : String :=
  match req.project_name with
  | none => cfg.project_name
  | some s => if s.isEmpty then cfg.project_name else s

/-- evaluator.py: `Evaluator.evaluate_safety` (span attribute writes are
observability-only and not modelled). -/
def evaluateSafety (cfg : EvaluationConfig) (transport : Transport)
    (req : EvaluationRequest) : PostOutcome :=
  let data := Json.obj [
    ("projectName", Json.str (resolveProject req cfg)),
    ("prompt", Json.str req.prompt),
    ("traceId", Json.str req.trace_id),
    ("timestamp", Json.num req.timestamp)]
  postRequest cfg transport cfg.safety_endpoint data

/-- evaluator.py: `Evaluator.evaluate_hallucination_bias`.  The guard is
`if not request.response:` — Python falsiness, so both `None` and the empty
string fail fast with an error response and no transport call. -/
def evaluateHallucinationBias (cfg : EvaluationConfig) (transport : Transport)
    (req : EvaluationRequest) : PostOutcome :=
  if optStrFalsy req.response then
    { result := .ret (EvaluationResponse.error_response
        "Response is required for hallucination/bias evaluation" none)
      calls := []
      sleeps := [] }
  else
    let data := Json.obj [
      ("projectName", Json.str (resolveProject req cfg)),
      ("prompt", Json.str req.prompt),
      ("response", Json.str (req.response.getD "")),
      ("traceId", Json.str req.trace_id),
      ("timestamp", Json.num req.timestamp)]
    postRequest cfg transport cfg.hallubias_endpoint data

/-- evaluator.py: `Evaluator.evaluate_external_hallucination`.  `response`
is checked by falsiness (`if not request.response:`) while `explanation`
and `score` are checked by identity with `None`
(`if request.explanation is None or request.score is None:`). -/
def evaluateExternalHallucination (cfg : EvaluationConfig) (transport : Transport)
    (req : EvaluationRequest) : PostOutcome :=
  if optStrFalsy req.response then
    { result := .ret (EvaluationResponse.error_response
        "Response is required for external hallucination evaluation" none)
      calls := []
      sleeps := [] }
  else if req.explanation = none ∨ req.score = none then
    { result := .ret (EvaluationResponse.error_response
        "Explanation and score are required for external hallucination evaluation" none)
      calls := []
      sleeps := [] }
  else
    let data := Json.obj [
      ("projectName", Json.str (resolveProject req cfg)),
      ("prompt", Json.str req.prompt),
      ("response", Json.str (req.response.getD "")),
      ("traceId", Json.str req.trace_id),
      ("timestamp", Json.num req.timestamp),
      ("evaluationResult", Json.str (req.explanation.getD "")),
      ("score", Json.num (req.score.getD 0))]
    postRequest cfg transport cfg.exterhallu_endpoint data

/-- evaluator.py: `Evaluator.evaluate`, the dispatch on `EvaluationType`. -/
def evaluate (cfg : EvaluationConfig) (transport : Transport)
    (t : EvaluationType) (req : EvaluationRequest) : PostOutcome :=
  match t with
  | .SAFETY => evaluateSafety cfg transport req
  | .HALLUCINATION_BIAS => evaluateHallucinationBias cfg transport req
  | .EXTERNAL_HALLUCINATION => evaluateExternalHallucination cfg transport req

/-- One worker's contribution to a batch: run `self.evaluate`; if it raised
(`future.result()` re-raises, caught by `except Exception as e`, and the
async path's `isinstance(result, Exception)` check does the same) convert
the exception into an error response. -/
def batchItem (cfg : EvaluationConfig) (transport : Transport)
    (t : EvaluationType) (req : EvaluationRequest) :
    EvaluationResponse × List String :=
  let out := evaluate cfg transport t req
  match out.result with
  | .ret r => (r, out.calls)
  | .requestExc msg =>
      (EvaluationResponse.error_response ("Evaluation failed: " ++ msg) none, out.calls)
  | .otherExc msg =>
      (EvaluationResponse.error_response ("Evaluation failed: " ++ msg) none, out.calls)

/-- evaluator.py: `Evaluator.evaluate_batch`.  The thread pool collects
results with `as_completed`, i.e. in a nondeterministic completion order;
the order is passed in explicitly as the list `order`, a permutation of the
batch's requests.  Returns the responses (one per request, exceptions
converted per item) together with the concatenated transport-call log. -/
def evaluateBatch (cfg : EvaluationConfig) (transport : Transport)
    (t : EvaluationType) (order : List EvaluationRequest) :
    List EvaluationResponse × List String :=
  let items := order.map (batchItem cfg transport t)
  (items.map Prod.fst, (items.map Prod.snd).flatten)

/-- evaluator.py: `Evaluator.evaluate_batch_async`.  `asyncio.gather`
preserves task submission order, so the responses come back in the order
of the batch's requests; `return_exceptions=True` plus the
`isinstance(result, Exception)` loop converts per-task exceptions to error
responses exactly as the synchronous path does. -/
def evaluateBatchAsync (cfg : EvaluationConfig) (transport : Transport)
    (t : EvaluationType) (requests : List EvaluationRequest) :
    List EvaluationResponse × List String :=
  evaluateBatch cfg transport t requests

/-- Ambient nondeterminism consumed by one `create_evaluation_request` call:
the uuid4 draw used by `trace_id or str(uuid.uuid4())`, a second uuid4 draw
available to `__post_init__`, the wall clock in UTC milliseconds, and the
local UTC offset in milliseconds (`astimezone().utcoffset()`). -/
structure Ambient where
  genId : String
  genId2 : String
  utcMillis : Int
  offsetMillis : Int

/-- evaluator.py: `Evaluator._get_trace_eval_timestamps`.  Returns the UTC
milliseconds and the local-adjusted milliseconds; the offset is added only
when the `utcoffset()` timedelta is truthy (non-zero). -/
def getTraceEvalTimestamps (utcMillis offsetMillis : Int) : Int × Int :=
  if offsetMillis ≠ 0 then (utcMillis, utcMillis + offsetMillis)
  else (utcMillis, utcMillis)

/-- The keyword arguments of `Evaluator.create_evaluation_request`. -/
structure RequestData where
  prompt : String
  response : Option String
  trace_id : Option String
  timestamp : Option Int
  explanation : Option String
  score : Option Int
  project_name : Option String
  use_local_timestamp : Bool
deriving Repr

/-- Python `opt or fallback` on an `Optional[str]`: the value when truthy,
else the fallback. -/
def orElseStr (opt : Option String) (fallback : String) : String :=
  match opt with
  | none => fallback
  | some s => if s.isEmpty then fallback else s

/-- evaluator.py: `Evaluator.create_evaluation_request`.  When `timestamp`
is `None` it is generated: the local-adjusted milliseconds when
`use_local_timestamp` is true, else the plain UTC milliseconds.  The
resulting `EvaluationRequest(...)` construction runs `__post_init__`. -/
def createEvaluationRequest (cfg : EvaluationConfig) (amb : Ambient)
    (d : RequestData) : EvaluationRequest :=
  let ts : Int :=
    match d.timestamp with
    | some t => t
    | none =>
        if d.use_local_timestamp then
          (getTraceEvalTimestamps amb.utcMillis amb.offsetMillis).2
        else amb.utcMillis
  EvaluationRequest.make
    { prompt := d.prompt
      trace_id := orElseStr d.trace_id amb.genId
      timestamp := ts
      response := d.response
      explanation := d.explanation
      score := d.score
      project_name := some (orElseStr d.project_name cfg.project_name) }
    amb.genId2 amb.utcMillis

/-- models.py: `BatchEvaluationRequest.__post_init__` — when the batch-level
`project_name` is truthy, propagate it to every request whose own
`project_name` is falsy. -/
def batchPostInit (requests : List EvaluationRequest) (pn : Option String) :
    List EvaluationRequest :=
  if optStrFalsy pn then requests
  else requests.map fun r =>
    if optStrFalsy r.project_name then { r with project_name := pn } else r

/-- batch.py: `BatchEvaluator._create_batch_requests`.  One request per
prompt; `responses[i] if responses else None` and likewise for
`trace_ids`/`timestamps`.  `ambs i` supplies the uuid/clock draws of the
i-th `create_evaluation_request` call. -/
def createBatchRequests (cfg : EvaluationConfig) (ambs : Nat → Ambient)
    (prompts : List String) (responses : Option (List String))
    (trace_ids : Option (List String)) (timestamps : Option (List Int))
    (project_name : Option String) : List EvaluationRequest :=
  prompts.enum.map fun p =>
    createEvaluationRequest cfg (ambs p.1)
      { prompt := p.2
        response := match responses with | some rs => rs.get? p.1 | none => none
        trace_id := match trace_ids with | some ts => ts.get? p.1 | none => none
        timestamp := match timestamps with | some ts => ts.get? p.1 | none => none
        explanation := none
        score := none
        project_name := project_name
        use_local_timestamp := true }

/-- batch.py: `BatchEvaluator.evaluate_safety_batch`.  Returns the built
batch (after `BatchEvaluationRequest.__post_init__` project-name
propagation) together with the sub-batch evaluation; `order` is the thread
pool's completion order, a permutation of the built batch. -/
def evaluateSafetyBatch (cfg : EvaluationConfig) (ambs : Nat → Ambient)
    (transport : Transport) (prompts : List String)
    (trace_ids : Option (List String)) (timestamps : Option (List Int))
    (project_name : Option String) (order : List EvaluationRequest) :
    List EvaluationRequest × List EvaluationResponse × List String :=
  let requests := batchPostInit
    (createBatchRequests cfg ambs prompts none trace_ids timestamps project_name)
    project_name
  (requests, evaluateBatch cfg transport .SAFETY order)

/-- batch.py: `BatchEvaluator.evaluate_hallucination_bias_batch`.
`Except.error` models the `ValueError` raised by the length check before
any request is constructed or any network call is issued; on success the
built batch is returned together with the sub-batch evaluation, `order`
being the completion order of the built requests. -/
def evaluateHallucinationBiasBatch (cfg : EvaluationConfig) (ambs : Nat → Ambient)
    (transport : Transport) (prompts responses : List String)
    (trace_ids : Option (List String)) (timestamps : Option (List Int))
    (project_name : Option String) (order : List EvaluationRequest) :
    Except String (List EvaluationRequest × List EvaluationResponse × List String) :=
  if prompts.length ≠ responses.length then
    .error "Number of prompts and responses must match"
  else
    let requests := batchPostInit
      (createBatchRequests cfg ambs prompts (some responses) trace_ids timestamps
        project_name)
      project_name
    .ok (requests, evaluateBatch cfg transport .HALLUCINATION_BIAS order)

/-- batch.py: `BatchEvaluator.evaluate_external_hallucination_batch`.  The
guard is `if not all(len(prompts) == len(lst) for lst in [responses,
explanations, scores]): raise ValueError(...)`; it runs before the
request-construction loop. -/
def evaluateExternalHallucinationBatch (cfg : EvaluationConfig)
    (ambs : Nat → Ambient) (transport : Transport)
    (prompts responses explanations : List String) (scores : List Int)
    (trace_ids : Option (List String)) (timestamps : Option (List Int))
    (project_name : Option String) (order : List EvaluationRequest) :
    Except String (List EvaluationRequest × List EvaluationResponse × List String) :=
  if ¬ (prompts.length = responses.length ∧ prompts.length = explanations.length
        ∧ prompts.length = scores.length) then
    .error "All input lists must have the same length"
  else
    let requests := batchPostInit
      ((List.range prompts.length).map fun i =>
        createEvaluationRequest cfg (ambs i)
          { prompt := (prompts.get? i).getD ""
            response := responses.get? i
            trace_id := match trace_ids with | some ts => ts.get? i | none => none
            timestamp := match timestamps with | some ts => ts.get? i | none => none
            explanation := explanations.get? i
            score := scores.get? i
            project_name := project_name
            use_local_timestamp := true })
      project_name
    .ok (requests, evaluateBatch cfg transport .EXTERNAL_HALLUCINATION order)

/-- One entry of `evaluate_mixed_batch`'s input: `config.get('type')` and the
keyword arguments `config.get('request', {})` passed to
`create_evaluation_request`. -/
structure MixedConfig where
  type : Option EvaluationType
  request : RequestData

/-- The requests `evaluate_mixed_batch` builds, one per config in submission
order, paired with each config's type. -/
def mixedBuilt (cfg : EvaluationConfig) (ambs : Nat → Ambient)
    (configs : List MixedConfig) :
    List (Option EvaluationType × EvaluationRequest) :=
  configs.enum.map fun p =>
    (p.2.type, createEvaluationRequest cfg (ambs p.1) p.2.request)

/-- One iteration of the grouping loop of `evaluate_mixed_batch`: append the
built request to the accumulator list for its type; an entry whose type
matches no branch of the `if`/`elif` chain is dropped. -/
def groupStep
    (acc : List EvaluationRequest × List EvaluationRequest × List EvaluationRequest)
    (p : Option EvaluationType × EvaluationRequest) :
    List EvaluationRequest × List EvaluationRequest × List EvaluationRequest :=
  match p.1 with
  | some .SAFETY => (acc.1 ++ [p.2], acc.2.1, acc.2.2)
  | some .HALLUCINATION_BIAS => (acc.1, acc.2.1 ++ [p.2], acc.2.2)
  | some .EXTERNAL_HALLUCINATION => (acc.1, acc.2.1, acc.2.2 ++ [p.2])
  | none => acc

/-- batch.py: the grouping loop of `evaluate_mixed_batch` — one forward pass
over the configs, starting from three empty lists. -/
def groupRequests (built : List (Option EvaluationType × EvaluationRequest)) :
    List EvaluationRequest × List EvaluationRequest × List EvaluationRequest :=
  built.foldl groupStep ([], [], [])

/-- Selector used to characterize the SAFETY group as a filter. -/
def selSafety (p : Option EvaluationType × EvaluationRequest) :
    Option EvaluationRequest :=
  match p.1 with
  | some .SAFETY => some p.2
  | _ => none

/-- Selector used to characterize the HALLUCINATION_BIAS group as a filter. -/
def selHalluBias (p : Option EvaluationType × EvaluationRequest) :
    Option EvaluationRequest :=
  match p.1 with
  | some .HALLUCINATION_BIAS => some p.2
  | _ => none

/-- Selector used to characterize the EXTERNAL_HALLUCINATION group as a
filter. -/
def selExterHallu (p : Option EvaluationType × EvaluationRequest) :
    Option EvaluationRequest :=
  match p.1 with
  | some .EXTERNAL_HALLUCINATION => some p.2
  | _ => none

/-- The fixed endpoint used by the typed evaluate method for each
`EvaluationType`. -/
def endpointOf (cfg : EvaluationConfig) : EvaluationType → String
  | .SAFETY => cfg.safety_endpoint
  | .HALLUCINATION_BIAS => cfg.hallubias_endpoint
  | .EXTERNAL_HALLUCINATION => cfg.exterhallu_endpoint

/-- batch.py: `BatchEvaluator.evaluate_mixed_batch`.  Builds one request per
config (in submission order, `ambs i` supplying the i-th call's ambient
draws), groups them by type, then evaluates each non-empty group as a
homogeneous sub-batch — SAFETY first, then HALLUCINATION_BIAS, then
EXTERNAL_HALLUCINATION — extending the result list group by group.  The
sub-batches run one after another, so the concatenated transport-call log
orders all SAFETY-group calls before all EXTERNAL_HALLUCINATION-group
calls.  `orderS`/`orderH`/`orderE` are the completion orders of the three
sub-batches. -/
def evaluateMixedBatch (cfg : EvaluationConfig) (ambs : Nat → Ambient)
    (transport : Transport) (configs : List MixedConfig)
    (orderS orderH orderE : List EvaluationRequest) :
    List EvaluationResponse × List String :=
  let groups := groupRequests (mixedBuilt cfg ambs configs)
  let rS := if groups.1.isEmpty then ([], [])
            else evaluateBatch cfg transport .SAFETY orderS
  let rH := if groups.2.1.isEmpty then ([], [])
            else evaluateBatch cfg transport .HALLUCINATION_BIAS orderH
  let rE := if groups.2.2.isEmpty then ([], [])
            else evaluateBatch cfg transport .EXTERNAL_HALLUCINATION orderE
  (rS.1 ++ rH.1 ++ rE.1, rS.2 ++ rH.2 ++ rE.2)

/-- "The call returned an error response": a normal return whose `success`
flag is false (nothing was raised). -/
def returnsError (out : PostOutcome) : Prop :=
  ∃ r, out.result = PyResult.ret r ∧ r.success = false

/-- A concrete configuration with the default `retry_attempts = 3`. -/
def cfgW : EvaluationConfig :=
  { project_name := "proj"
    api_endpoint := "http://host"
    api_key := some "k"
    username := some "u"
    timeout := 30
    retry_attempts := 3 }

/-- Concrete ambient draws: uuid strings, a clock reading, a one-hour
local UTC offset. -/
def ambW : Ambient :=
  { genId := "11111111-1111-1111-1111-111111111111"
    genId2 := "22222222-2222-2222-2222-222222222222"
    utcMillis := 1000000
    offsetMillis := 3600000 }

/-- A transport stub that raises a connection error on every attempt. -/
def raiseTransport : Transport :=
  fun _ _ _ => .raises "Connection refused"

/-- A transport stub that always returns HTTP 404. -/
def notFoundTransport : Transport :=
  fun _ _ _ => .returns { status_code := 404, text := "not found", jsonBody := none }

/-- A transport stub that always returns HTTP 200 with body
`{"evaluations": {"verdict": "safe"}}`. -/
def okTransport : Transport :=
  fun _ _ _ => .returns
    { status_code := 200
      text := "body"
      jsonBody := some (Json.obj
        [("evaluations", Json.obj [("verdict", Json.str "safe")])]) }

/-- A transport stub whose 200 body parses to a JSON string, so
`response_data.get` raises an `AttributeError` inside the worker. -/
def badJsonTransport : Transport :=
  fun _ _ _ => .returns
    { status_code := 200, text := "\x22oops\x22", jsonBody := some (Json.str "oops") }

/-- A concrete fully-populated request (valid for every evaluation type). -/
def reqFull : EvaluationRequest :=
  { prompt := "p"
    trace_id := "tid"
    timestamp := 5
    response := some "resp"
    explanation := some "because"
    score := some 7
    project_name := some "proj" }

/-- A concrete request whose optional fields are all missing. -/
def reqBare : EvaluationRequest :=
  { prompt := "p"
    trace_id := "tid"
    timestamp := 5
    response := none
    explanation := none
    score := none
    project_name := none }

/-- A concrete request whose `response` is the empty string and whose
`explanation` and `score` are the falsy-but-present values. -/
def reqEdge : EvaluationRequest :=
  { prompt := "p"
    trace_id := "tid"
    timestamp := 5
    response := some ""
    explanation := some ""
    score := some 0
    project_name := none }

/-- `reqEdge` with a non-empty response: `explanation = ""` and `score = 0`
are present (not `None`), so validation passes. -/
def reqEdge2 : EvaluationRequest :=
  { prompt := "p"
    trace_id := "tid"
    timestamp := 5
    response := some "resp"
    explanation := some ""
    score := some 0
    project_name := none }

/-- Concrete mixed-batch input: one SAFETY entry and one
EXTERNAL_HALLUCINATION entry. -/
def mixedConfigsW : List MixedConfig :=
  [ { type := some .SAFETY
      request :=
        { prompt := "sp", response := none, trace_id := some "t1",
          timestamp := some 5, explanation := none, score := none,
          project_name := none, use_local_timestamp := true } }
  , { type := some .EXTERNAL_HALLUCINATION
      request :=
        { prompt := "ep", response := some "er", trace_id := some "t2",
          timestamp := some 6, explanation := some "ex", score := some 1,
          project_name := none, use_local_timestamp := true } } ]

/-! ## Helper lemmas -/

/-- Every endpoint recorded in the retry loop's call log is the endpoint the
loop was asked to POST to. -/
theorem postRequestLoop_calls_mem (cfg : EvaluationConfig) (transport : Transport)
    (endpoint : String) (data : Json) :
    ∀ (fuel attempt : Nat) (e : String),
      e ∈ (postRequestLoop cfg transport endpoint data attempt fuel).calls →
      e = endpoint := by
  intro fuel
  induction fuel with
  | zero =>
      intro attempt e h
      simp [postRequestLoop] at h
  | succ n ih =>
      intro attempt e h
      simp only [postRequestLoop] at h
      split at h
      · split at h
        · simp at h
          exact h
        · simp at h
          exact h
        · split at h
          · simp at h
            exact h
          · simp only at h
            simp only [List.mem_cons] at h
            rcases h with h | h
            · exact h
            · exact ih (attempt + 1) e h
      · split at h
        · simp at h
          exact h
        · simp only at h
          simp only [List.mem_cons] at h
          rcases h with h | h
          · exact h
          · exact ih (attempt + 1) e h

/-- With at least one loop iteration available, the retry loop performs at
least one transport call. -/
theorem postRequestLoop_calls_ne_nil (cfg : EvaluationConfig) (transport : Transport)
    (endpoint : String) (data : Json) (attempt n : Nat) :
    (postRequestLoop cfg transport endpoint data attempt (n + 1)).calls ≠ [] := by
  simp only [postRequestLoop]
  split
  · split
    · simp
    · simp
    · split <;> simp
  · split <;> simp

/-- `_post_request` performs at least one transport call whenever
`retry_attempts` is positive. -/
theorem postRequest_calls_ne_nil (cfg : EvaluationConfig) (transport : Transport)
    (endpoint : String) (data : Json) (hR : 0 < cfg.retry_attempts) :
    (postRequest cfg transport endpoint data).calls ≠ [] := by
  obtain ⟨n, hn⟩ := Nat.exists_eq_succ_of_ne_zero (Nat.pos_iff_ne_zero.mp hR)
  unfold postRequest
  rw [hn]
  exact postRequestLoop_calls_ne_nil cfg transport endpoint data 0 n

/-- Every transport call made by `evaluate` for a given type goes to that
type's fixed endpoint. -/
theorem evaluate_calls_mem (cfg : EvaluationConfig) (transport : Transport)
    (t : EvaluationType) (req : EvaluationRequest) :
    ∀ e ∈ (evaluate cfg transport t req).calls, e = endpointOf cfg t := by
  intro e he
  cases t with
  | SAFETY =>
      exact postRequestLoop_calls_mem cfg transport cfg.safety_endpoint _ _ _ e he
  | HALLUCINATION_BIAS =>
      dsimp [evaluate, evaluateHallucinationBias] at he
      split at he
      · simp at he
      · exact postRequestLoop_calls_mem cfg transport cfg.hallubias_endpoint _ _ _ e he
  | EXTERNAL_HALLUCINATION =>
      dsimp [evaluate, evaluateExternalHallucination] at he
      split at he
      · simp at he
      · split at he
        · simp at he
        · exact postRequestLoop_calls_mem cfg transport cfg.exterhallu_endpoint _ _ _ e he

/-- Every transport call made by a homogeneous batch goes to its type's
fixed endpoint. -/
theorem evaluateBatch_calls_mem (cfg : EvaluationConfig) (transport : Transport)
    (t : EvaluationType) (order : List EvaluationRequest) :
    ∀ e ∈ (evaluateBatch cfg transport t order).2, e = endpointOf cfg t := by
  intro e he
  simp only [evaluateBatch, List.mem_flatten, List.mem_map] at he
  obtain ⟨l, ⟨⟨item, ⟨req, hreq, hitem⟩, hl⟩, hel⟩⟩ := he
  subst hitem hl
  have : e ∈ (evaluate cfg transport t req).calls := by
    dsimp [batchItem] at hel
    revert hel
    cases (evaluate cfg transport t req).result <;> intro hel <;> simpa using hel
  exact evaluate_calls_mem cfg transport t req e this

/-! ## Claims -/

/-- C5: on an HTTP 200 whose body parses as a JSON object,
`_process_response` returns a success response whose `data` is the value of
the body's `evaluations` key when present, and the whole parsed body
otherwise. -/
theorem claim_C5 (kvs : List (String × Json)) (text : String) :
    (∀ v, Json.lookup kvs "evaluations" = some v →
      processResponse { status_code := 200, text := text, jsonBody := some (Json.obj kvs) }
        = PyResult.ret (EvaluationResponse.success_response v)
      ∧ (EvaluationResponse.success_response v).success = true
      ∧ (EvaluationResponse.success_response v).data = some v)
    ∧ (Json.lookup kvs "evaluations" = none →
      processResponse { status_code := 200, text := text, jsonBody := some (Json.obj kvs) }
        = PyResult.ret (EvaluationResponse.success_response (Json.obj kvs))) := by
  constructor
  · intro v hv
    refine ⟨?_, rfl, rfl⟩
    simp [processResponse, hv]
  · intro hv
    simp [processResponse, hv]

/-- C5 witness: body `{"evaluations": {"verdict": "safe"}}` yields `data`
`{"verdict": "safe"}`, not the outer envelope. -/
theorem claim_C5_witness :
    processResponse
        { status_code := 200
          text := "body"
          jsonBody := some (Json.obj
            [("evaluations", Json.obj [("verdict", Json.str "safe")])]) }
      = PyResult.ret (EvaluationResponse.success_response
          (Json.obj [("verdict", Json.str "safe")]))
    ∧ (EvaluationResponse.success_response
        (Json.obj [("verdict", Json.str "safe")])).success = true
    ∧ (EvaluationResponse.success_response
        (Json.obj [("verdict", Json.str "safe")])).data
      = some (Json.obj [("verdict", Json.str "safe")]) :=
  (claim_C5 [("evaluations", Json.obj [("verdict", Json.str "safe")])] "body").1
    (Json.obj [("verdict", Json.str "safe")]) rfl

/-- C7: after construction (`__post_init__` included), `trace_id` and
`timestamp` are populated — non-empty and non-zero — whatever the caller
supplied, provided the generated uuid is non-empty and the clock reading is
non-zero (always true of `str(uuid.uuid4())` and a post-epoch clock); and
the default-fill is idempotent: re-running `__post_init__` on the
constructed value changes nothing, so re-reads are stable. -/
theorem claim_C7 (r : EvaluationRequest) (genId : String) (nowMillis : Int)
    (hg : genId.isEmpty = false) (hn : nowMillis ≠ 0) :
    (EvaluationRequest.make r genId nowMillis).trace_id.isEmpty = false
    ∧ (EvaluationRequest.make r genId nowMillis).timestamp ≠ 0
    ∧ ∀ (g : String) (n : Int),
        EvaluationRequest.postInit (EvaluationRequest.make r genId nowMillis) g n
          = EvaluationRequest.make r genId nowMillis := by
  have key : (EvaluationRequest.make r genId nowMillis).trace_id.isEmpty = false
      ∧ (EvaluationRequest.make r genId nowMillis).timestamp ≠ 0 := by
    unfold EvaluationRequest.make EvaluationRequest.postInit
    by_cases h1 : r.trace_id.isEmpty <;> by_cases h2 : r.timestamp = 0 <;>
      simp [h1, h2, hg, hn]
  refine ⟨key.1, key.2, ?_⟩
  intro g n
  unfold EvaluationRequest.postInit
  simp [key.1, key.2]

/-- C7 witness: a request supplied with empty `trace_id` and zero
`timestamp` comes out populated and stable. -/
theorem claim_C7_witness :
    ("7f000001-0000-4000-8000-000000000001" : String).isEmpty = false
    ∧ (1700000000000 : Int) ≠ 0
    ∧ ((EvaluationRequest.make
          { prompt := "p", trace_id := "", timestamp := 0, response := none,
            explanation := none, score := none, project_name := none }
          "7f000001-0000-4000-8000-000000000001" 1700000000000).trace_id.isEmpty = false
      ∧ (EvaluationRequest.make
          { prompt := "p", trace_id := "", timestamp := 0, response := none,
            explanation := none, score := none, project_name := none }
          "7f000001-0000-4000-8000-000000000001" 1700000000000).timestamp ≠ 0
      ∧ ∀ (g : String) (n : Int),
          EvaluationRequest.postInit
              (EvaluationRequest.make
                { prompt := "p", trace_id := "", timestamp := 0, response := none,
                  explanation := none, score := none, project_name := none }
                "7f000001-0000-4000-8000-000000000001" 1700000000000) g n
            = EvaluationRequest.make
                { prompt := "p", trace_id := "", timestamp := 0, response := none,
                  explanation := none, score := none, project_name := none }
                "7f000001-0000-4000-8000-000000000001" 1700000000000) :=
  ⟨by decide, by decide,
    claim_C7
      { prompt := "p", trace_id := "", timestamp := 0, response := none,
        explanation := none, score := none, project_name := none }
      "7f000001-0000-4000-8000-000000000001" 1700000000000 (by decide) (by decide)⟩

/-- C4: with a missing (`None`) `response`, `evaluate` for
HALLUCINATION_BIAS and EXTERNAL_HALLUCINATION returns an error response
with an empty transport-call log (no network call); for
EXTERNAL_HALLUCINATION a missing `explanation` or `score` does the same. -/
theorem claim_C4 (cfg : EvaluationConfig) (transport : Transport)
    (req : EvaluationRequest) :
    (req.response = none →
      ((evaluate cfg transport .HALLUCINATION_BIAS req).calls = []
        ∧ returnsError (evaluate cfg transport .HALLUCINATION_BIAS req))
      ∧ ((evaluate cfg transport .EXTERNAL_HALLUCINATION req).calls = []
        ∧ returnsError (evaluate cfg transport .EXTERNAL_HALLUCINATION req)))
    ∧ ((req.explanation = none ∨ req.score = none) →
      (evaluate cfg transport .EXTERNAL_HALLUCINATION req).calls = []
        ∧ returnsError (evaluate cfg transport .EXTERNAL_HALLUCINATION req)) := by
  constructor
  · intro h
    have hb : evaluate cfg transport .HALLUCINATION_BIAS req
        = { result := .ret (EvaluationResponse.error_response
              "Response is required for hallucination/bias evaluation" none)
            calls := [], sleeps := [] } := by
      simp [evaluate, evaluateHallucinationBias, optStrFalsy, h]
    have he : evaluate cfg transport .EXTERNAL_HALLUCINATION req
        = { result := .ret (EvaluationResponse.error_response
              "Response is required for external hallucination evaluation" none)
            calls := [], sleeps := [] } := by
      simp [evaluate, evaluateExternalHallucination, optStrFalsy, h]
    exact ⟨⟨by rw [hb], ⟨EvaluationResponse.error_response
              "Response is required for hallucination/bias evaluation" none,
            by rw [hb], rfl⟩⟩,
           ⟨by rw [he], ⟨EvaluationResponse.error_response
              "Response is required for external hallucination evaluation" none,
            by rw [he], rfl⟩⟩⟩
  · intro h
    by_cases hr : optStrFalsy req.response
    · have he : evaluate cfg transport .EXTERNAL_HALLUCINATION req
          = { result := .ret (EvaluationResponse.error_response
                "Response is required for external hallucination evaluation" none)
              calls := [], sleeps := [] } := by
        simp [evaluate, evaluateExternalHallucination, hr]
      exact ⟨by rw [he], ⟨EvaluationResponse.error_response
                "Response is required for external hallucination evaluation" none,
              by rw [he], rfl⟩⟩
    · have he : evaluate cfg transport .EXTERNAL_HALLUCINATION req
          = { result := .ret (EvaluationResponse.error_response
                "Explanation and score are required for external hallucination evaluation" none)
              calls := [], sleeps := [] } := by
        simp [evaluate, evaluateExternalHallucination, hr, h]
      exact ⟨by rw [he], ⟨EvaluationResponse.error_response
                "Explanation and score are required for external hallucination evaluation" none,
              by rw [he], rfl⟩⟩

/-- C4 witness: a request with no `response`, `explanation` or `score`
fails fast on both paths with no transport call. -/
theorem claim_C4_witness :
    (((evaluate cfgW raiseTransport .HALLUCINATION_BIAS reqBare).calls = []
        ∧ returnsError (evaluate cfgW raiseTransport .HALLUCINATION_BIAS reqBare))
      ∧ ((evaluate cfgW raiseTransport .EXTERNAL_HALLUCINATION reqBare).calls = []
        ∧ returnsError (evaluate cfgW raiseTransport .EXTERNAL_HALLUCINATION reqBare)))
    ∧ ((evaluate cfgW raiseTransport .EXTERNAL_HALLUCINATION reqBare).calls = []
        ∧ returnsError (evaluate cfgW raiseTransport .EXTERNAL_HALLUCINATION reqBare)) :=
  ⟨(claim_C4 cfgW raiseTransport reqBare).1 rfl,
   (claim_C4 cfgW raiseTransport reqBare).2 (Or.inl rfl)⟩

/-- C10: at the `evaluate` boundary "missing" is falsiness for `response`
but `None`-ness for `explanation`/`score`: an empty-string `response` is
rejected with no network call by both typed paths, while an
EXTERNAL_HALLUCINATION request with `explanation = ""` and `score = 0` (and
a non-empty response) passes validation and reaches the transport. -/
theorem claim_C10 (cfg : EvaluationConfig) (transport : Transport)
    (req : EvaluationRequest) (s : String) :
    (req.response = some "" →
      ((evaluate cfg transport .HALLUCINATION_BIAS req).calls = []
        ∧ returnsError (evaluate cfg transport .HALLUCINATION_BIAS req))
      ∧ ((evaluate cfg transport .EXTERNAL_HALLUCINATION req).calls = []
        ∧ returnsError (evaluate cfg transport .EXTERNAL_HALLUCINATION req)))
    ∧ (req.response = some s → s.isEmpty = false → req.explanation = some "" →
        req.score = some 0 → 0 < cfg.retry_attempts →
        (evaluate cfg transport .EXTERNAL_HALLUCINATION req).calls ≠ []) := by
  constructor
  · intro h
    have hemp : ("" : String).isEmpty = true := rfl
    have hb : evaluate cfg transport .HALLUCINATION_BIAS req
        = { result := .ret (EvaluationResponse.error_response
              "Response is required for hallucination/bias evaluation" none)
            calls := [], sleeps := [] } := by
      simp [evaluate, evaluateHallucinationBias, optStrFalsy, h, hemp]
    have he : evaluate cfg transport .EXTERNAL_HALLUCINATION req
        = { result := .ret (EvaluationResponse.error_response
              "Response is required for external hallucination evaluation" none)
            calls := [], sleeps := [] } := by
      simp [evaluate, evaluateExternalHallucination, optStrFalsy, h, hemp]
    exact ⟨⟨by rw [hb], ⟨EvaluationResponse.error_response
              "Response is required for hallucination/bias evaluation" none,
            by rw [hb], rfl⟩⟩,
           ⟨by rw [he], ⟨EvaluationResponse.error_response
              "Response is required for external hallucination evaluation" none,
            by rw [he], rfl⟩⟩⟩
  · intro hresp hs hexp hscore hR
    have hfalsy : optStrFalsy req.response = false := by
      rw [hresp]
      simpa [optStrFalsy] using hs
    have hde : ¬ (req.explanation = none ∨ req.score = none) := by
      rw [hexp, hscore]
      simp
    simp only [evaluate, evaluateExternalHallucination, hfalsy, hde,
      Bool.false_eq_true, if_false]
    exact postRequest_calls_ne_nil cfg transport _ _ hR

/-- C10 witness: `response = ""` is rejected with no call on both paths,
while `response = "resp"`, `explanation = ""`, `score = 0` reaches the
transport. -/
theorem claim_C10_witness :
    (((evaluate cfgW okTransport .HALLUCINATION_BIAS reqEdge).calls = []
        ∧ returnsError (evaluate cfgW okTransport .HALLUCINATION_BIAS reqEdge))
      ∧ ((evaluate cfgW okTransport .EXTERNAL_HALLUCINATION reqEdge).calls = []
        ∧ returnsError (evaluate cfgW okTransport .EXTERNAL_HALLUCINATION reqEdge)))
    ∧ (evaluate cfgW okTransport .EXTERNAL_HALLUCINATION reqEdge2).calls ≠ [] :=
  ⟨(claim_C10 cfgW okTransport reqEdge "resp").1 rfl,
   (claim_C10 cfgW okTransport reqEdge2 "resp").2 rfl rfl rfl rfl (by decide)⟩

/-- C9: mismatched parallel input lengths make the batch builders fail with
the `ValueError` (modelled as `Except.error`) before any request is
constructed or any transport call issued. -/
theorem claim_C9 (cfg : EvaluationConfig) (ambs : Nat → Ambient)
    (transport : Transport) (prompts responses explanations : List String)
    (scores : List Int) (trace_ids : Option (List String))
    (timestamps : Option (List Int)) (project_name : Option String)
    (orderH orderE : List EvaluationRequest) :
    (prompts.length ≠ responses.length →
      evaluateHallucinationBiasBatch cfg ambs transport prompts responses
          trace_ids timestamps project_name orderH
        = .error "Number of prompts and responses must match")
    ∧ (¬ (prompts.length = responses.length
          ∧ prompts.length = explanations.length
          ∧ prompts.length = scores.length) →
      evaluateExternalHallucinationBatch cfg ambs transport prompts responses
          explanations scores trace_ids timestamps project_name orderE
        = .error "All input lists must have the same length") := by
  constructor
  · intro h
    simp [evaluateHallucinationBiasBatch, h]
  · intro h
    simp only [evaluateExternalHallucinationBatch, if_pos h]

/-- C9 witness: 3 prompts against 2 responses (and 2 scores) fail with the
validation error on both batch builders. -/
theorem claim_C9_witness :
    (evaluateHallucinationBiasBatch cfgW (fun _ => ambW) okTransport
        ["a", "b", "c"] ["x", "y"] none none none []
      = .error "Number of prompts and responses must match")
    ∧ (evaluateExternalHallucinationBatch cfgW (fun _ => ambW) okTransport
        ["a", "b", "c"] ["x", "y"] ["e1", "e2", "e3"] [1, 2] none none none []
      = .error "All input lists must have the same length") :=
  ⟨(claim_C9 cfgW (fun _ => ambW) okTransport ["a", "b", "c"] ["x", "y"]
      ["e1", "e2", "e3"] [1, 2] none none none [] []).1 (by decide),
   (claim_C9 cfgW (fun _ => ambW) okTransport ["a", "b", "c"] ["x", "y"]
      ["e1", "e2", "e3"] [1, 2] none none none [] []).2 (by decide)⟩

/-- C2: a 4xx/5xx HTTP response is mapped to an error response after exactly
one transport attempt — no retry — with `status_code` preserved and the
response body text included in the error message. -/
theorem claim_C2 (cfg : EvaluationConfig) (transport : Transport)
    (endpoint : String) (data : Json) (s : Int) (text : String) (jb : Option Json)
    (hR : 0 < cfg.retry_attempts)
    (htr : transport endpoint data 0
      = .returns { status_code := s, text := text, jsonBody := jb })
    (h4 : 400 ≤ s) (h6 : s < 600) :
    (postRequest cfg transport endpoint data).calls = [endpoint]
    ∧ (postRequest cfg transport endpoint data).result
        = PyResult.ret (EvaluationResponse.error_response
            ((if s < 500 then "Client error " else "Server error ")
              ++ toString s ++ ": " ++ text) (some s))
    ∧ ∃ r, (postRequest cfg transport endpoint data).result = PyResult.ret r
        ∧ r.success = false ∧ r.status_code = some s
        ∧ ∃ p, r.error_message = some (p ++ text) := by
  obtain ⟨n, hn⟩ := Nat.exists_eq_succ_of_ne_zero (Nat.pos_iff_ne_zero.mp hR)
  have h200 : ¬ (s = 200) := by omega
  have key : postRequest cfg transport endpoint data
      = { result := PyResult.ret (EvaluationResponse.error_response
            ((if s < 500 then "Client error " else "Server error ")
              ++ toString s ++ ": " ++ text) (some s))
          calls := [endpoint], sleeps := [] } := by
    unfold postRequest
    rw [hn]
    simp only [postRequestLoop, htr]
    by_cases h5 : s < 500
    · have hcl : 400 ≤ s ∧ s < 500 := ⟨h4, h5⟩
      simp [processResponse, h200, hcl, h5]
    · have hcl : ¬ (400 ≤ s ∧ s < 500) := by omega
      have hsv : 500 ≤ s ∧ s < 600 := by omega
      simp [processResponse, h200, hcl, hsv, h5]
  refine ⟨by rw [key], by rw [key],
    EvaluationResponse.error_response
      ((if s < 500 then "Client error " else "Server error ")
        ++ toString s ++ ": " ++ text) (some s),
    by rw [key], rfl, rfl,
    (if s < 500 then "Client error " else "Server error ") ++ toString s ++ ": ",
    rfl⟩

/-- C2 witness: a transport stub returning HTTP 404 — one attempt, error
response with `status_code = 404` carrying the body text. -/
theorem claim_C2_witness :
    (postRequest cfgW notFoundTransport "E" Json.null).calls = ["E"]
    ∧ (postRequest cfgW notFoundTransport "E" Json.null).result
        = PyResult.ret (EvaluationResponse.error_response
            ((if (404 : Int) < 500 then "Client error " else "Server error ")
              ++ toString (404 : Int) ++ ": " ++ "not found") (some 404))
    ∧ ∃ r, (postRequest cfgW notFoundTransport "E" Json.null).result = PyResult.ret r
        ∧ r.success = false ∧ r.status_code = some 404
        ∧ ∃ p, r.error_message = some (p ++ "not found") :=
  claim_C2 cfgW notFoundTransport "E" Json.null 404 "not found" none
    (by decide) rfl (by decide) (by decide)

/-- When the transport raises a `RequestException` on every attempt, the
retry loop entered at `attempt` with the matching remaining fuel performs
one call per remaining iteration, sleeps `2 ^ a` seconds after each
non-final attempt `a`, and ends with the "failed after N attempts" error
response built from the last attempt's exception. -/
theorem postRequestLoop_raises_all (cfg : EvaluationConfig) (transport : Transport)
    (endpoint : String) (data : Json) (m : Nat → String)
    (htr : ∀ i, transport endpoint data i = .raises (m i)) :
    ∀ (fuel attempt : Nat), attempt + (fuel + 1) = cfg.retry_attempts →
      postRequestLoop cfg transport endpoint data attempt (fuel + 1)
        = { result := PyResult.ret (EvaluationResponse.error_response
              ("Request to " ++ endpoint ++ " failed after "
                ++ toString cfg.retry_attempts ++ " attempts: "
                ++ m (cfg.retry_attempts - 1)) none)
            calls := List.replicate (fuel + 1) endpoint
            sleeps := (List.range' attempt fuel).map (fun a => 2 ^ a) } := by
  intro fuel
  induction fuel with
  | zero =>
      intro attempt hsum
      have hlast : attempt = cfg.retry_attempts - 1 := by omega
      rw [postRequestLoop.eq_2, htr attempt]
      dsimp only
      rw [if_pos hlast, hlast]
      simp
  | succ k ih =>
      intro attempt hsum
      have hne : ¬ (attempt = cfg.retry_attempts - 1) := by omega
      rw [postRequestLoop.eq_2, htr attempt]
      dsimp only
      rw [if_neg hne, ih (attempt + 1) (by omega)]
      simp [List.replicate_succ, List.range'_succ]

/-- C1: when the transport raises a connection-level error on every attempt,
`_post_request` issues exactly `retry_attempts` attempts (for any endpoint
and payload), sleeps `2 ^ attempt` seconds between consecutive attempts
(1s, 2s, 4s, …), and returns — without raising — an error response
(`success = false`) whose message names the endpoint and the attempt count;
`evaluate_safety` behaves the same through it. -/
theorem claim_C1 (cfg : EvaluationConfig) (transport : Transport)
    (endpoint : String) (data : Json) (m : Nat → String)
    (req : EvaluationRequest) (hR : 0 < cfg.retry_attempts)
    (htr : ∀ e d i, transport e d i = .raises (m i)) :
    ((postRequest cfg transport endpoint data).calls.length = cfg.retry_attempts
      ∧ (postRequest cfg transport endpoint data).sleeps
          = (List.range (cfg.retry_attempts - 1)).map (fun a => 2 ^ a)
      ∧ (postRequest cfg transport endpoint data).result
          = PyResult.ret (EvaluationResponse.error_response
              ("Request to " ++ endpoint ++ " failed after "
                ++ toString cfg.retry_attempts ++ " attempts: "
                ++ m (cfg.retry_attempts - 1)) none)
      ∧ returnsError (postRequest cfg transport endpoint data))
    ∧ ((evaluateSafety cfg transport req).calls.length = cfg.retry_attempts
      ∧ (evaluateSafety cfg transport req).result
          = PyResult.ret (EvaluationResponse.error_response
              ("Request to " ++ cfg.safety_endpoint ++ " failed after "
                ++ toString cfg.retry_attempts ++ " attempts: "
                ++ m (cfg.retry_attempts - 1)) none)
      ∧ returnsError (evaluateSafety cfg transport req)) := by
  obtain ⟨n, hn⟩ := Nat.exists_eq_succ_of_ne_zero (Nat.pos_iff_ne_zero.mp hR)
  have key : ∀ (e : String) (d : Json),
      postRequest cfg transport e d
        = { result := PyResult.ret (EvaluationResponse.error_response
              ("Request to " ++ e ++ " failed after "
                ++ toString cfg.retry_attempts ++ " attempts: "
                ++ m (cfg.retry_attempts - 1)) none)
            calls := List.replicate (n + 1) e
            sleeps := (List.range' 0 n).map (fun a => 2 ^ a) } := by
    intro e d
    show postRequestLoop cfg transport e d 0 cfg.retry_attempts = _
    conv_lhs => rw [hn]
    exact postRequestLoop_raises_all cfg transport e d m (fun i => htr e d i) n 0
      (by omega)
  have hrange : (List.range (cfg.retry_attempts - 1)).map (fun a => 2 ^ a)
      = (List.range' 0 n).map (fun a => 2 ^ a) := by
    rw [List.range_eq_range', hn]
    simp
  constructor
  · refine ⟨?_, ?_, ?_, ?_⟩
    · rw [key endpoint data]
      simp [hn]
    · rw [key endpoint data, hrange]
    · rw [key endpoint data]
    · exact ⟨_, by rw [key endpoint data], rfl⟩
  · refine ⟨?_, ?_, ?_⟩
    · show (postRequest cfg transport cfg.safety_endpoint _).calls.length = _
      rw [key]
      simp [hn]
    · show (postRequest cfg transport cfg.safety_endpoint _).result = _
      rw [key]
    · exact ⟨_, by
        show (postRequest cfg transport cfg.safety_endpoint _).result = _
        rw [key], rfl⟩

/-- C1 witness: `retry_attempts = 3` and a transport stub always raising a
connection error — exactly 3 attempts, sleeps [1, 2], error response naming
the endpoint and attempt count; same through `evaluate_safety`. -/
theorem claim_C1_witness :
    ((postRequest cfgW raiseTransport "E" Json.null).calls.length = cfgW.retry_attempts
      ∧ (postRequest cfgW raiseTransport "E" Json.null).sleeps
          = (List.range (cfgW.retry_attempts - 1)).map (fun a => 2 ^ a)
      ∧ (postRequest cfgW raiseTransport "E" Json.null).result
          = PyResult.ret (EvaluationResponse.error_response
              ("Request to " ++ "E" ++ " failed after "
                ++ toString cfgW.retry_attempts ++ " attempts: "
                ++ "Connection refused") none)
      ∧ returnsError (postRequest cfgW raiseTransport "E" Json.null))
    ∧ ((evaluateSafety cfgW raiseTransport reqFull).calls.length = cfgW.retry_attempts
      ∧ (evaluateSafety cfgW raiseTransport reqFull).result
          = PyResult.ret (EvaluationResponse.error_response
              ("Request to " ++ cfgW.safety_endpoint ++ " failed after "
                ++ toString cfgW.retry_attempts ++ " attempts: "
                ++ "Connection refused") none)
      ∧ returnsError (evaluateSafety cfgW raiseTransport reqFull)) :=
  claim_C1 cfgW raiseTransport "E" Json.null (fun _ => "Connection refused")
    reqFull (by decide) (fun _ _ _ => rfl)

/-- A homogeneous batch returns exactly one response per item of the
processing order. -/
theorem evaluateBatch_length_eq (cfg : EvaluationConfig) (transport : Transport)
    (t : EvaluationType) (l : List EvaluationRequest) :
    (evaluateBatch cfg transport t l).1.length = l.length := by
  simp [evaluateBatch]

/-- An item whose evaluation raised contributes an error response at its
position in the batch result. -/
theorem evaluateBatch_get_success_false (cfg : EvaluationConfig)
    (transport : Transport) (t : EvaluationType) (l : List EvaluationRequest)
    (i : Nat) (hi : i < l.length)
    (hexc : (evaluate cfg transport t (l.get ⟨i, hi⟩)).result.isExc = true)
    (hj : i < (evaluateBatch cfg transport t l).1.length) :
    ((evaluateBatch cfg transport t l).1.get ⟨i, hj⟩).success = false := by
  have h1 : (evaluateBatch cfg transport t l).1
      = l.map (fun r => (batchItem cfg transport t r).1) := by
    simp [evaluateBatch, Function.comp]
  have h2 : (evaluateBatch cfg transport t l).1.get ⟨i, hj⟩
      = (batchItem cfg transport t (l.get ⟨i, hi⟩)).1 := by
    simp only [h1, List.get_eq_getElem, List.getElem_map]
  rw [h2]
  dsimp [batchItem]
  rcases hres : (evaluate cfg transport t (l.get ⟨i, hi⟩)).result with r | msg | msg
  · rw [hres] at hexc
    simp [PyResult.isExc] at hexc
  · simp [hres, EvaluationResponse.error_response]
  · simp [hres, EvaluationResponse.error_response]

/-- C3: for every batch and every per-item behavior (exceptions included),
the synchronous batch — in any completion order — and the asynchronous
batch return one `EvaluationResponse` per submitted request; an item whose
evaluation raised contributes an error response (`success = false`), and
nothing propagates (the result is a plain list of responses). -/
theorem claim_C3 (cfg : EvaluationConfig) (transport : Transport)
    (t : EvaluationType) (requests order : List EvaluationRequest)
    (hperm : order.Perm requests) :
    ((evaluateBatch cfg transport t order).1.length = requests.length)
    ∧ (∀ (i : Nat) (hi : i < order.length),
        (evaluate cfg transport t (order.get ⟨i, hi⟩)).result.isExc = true →
        ∀ (hj : i < (evaluateBatch cfg transport t order).1.length),
          ((evaluateBatch cfg transport t order).1.get ⟨i, hj⟩).success = false)
    ∧ ((evaluateBatchAsync cfg transport t requests).1.length = requests.length)
    ∧ (∀ (i : Nat) (hi : i < requests.length),
        (evaluate cfg transport t (requests.get ⟨i, hi⟩)).result.isExc = true →
        ∀ (hj : i < (evaluateBatchAsync cfg transport t requests).1.length),
          ((evaluateBatchAsync cfg transport t requests).1.get ⟨i, hj⟩).success
            = false) := by
  refine ⟨?_, ?_, ?_, ?_⟩
  · rw [evaluateBatch_length_eq]
    exact hperm.length_eq
  · intro i hi hexc hj
    exact evaluateBatch_get_success_false cfg transport t order i hi hexc hj
  · exact evaluateBatch_length_eq cfg transport t requests
  · intro i hi hexc hj
    exact evaluateBatch_get_success_false cfg transport t requests i hi hexc hj

/-- C3 witness: two safety requests against a transport whose 200 body is a
JSON string, so every worker raises an `AttributeError`; both paths return
2 responses and position 0 is an error response. -/
theorem claim_C3_witness :
    ((evaluateBatch cfgW badJsonTransport .SAFETY [reqFull, reqBare]).1.length = 2)
    ∧ ((evaluateBatchAsync cfgW badJsonTransport .SAFETY [reqFull, reqBare]).1.length = 2)
    ∧ (((evaluateBatch cfgW badJsonTransport .SAFETY [reqFull, reqBare]).1.get
          ⟨0, by decide⟩).success = false) := by
  have h := claim_C3 cfgW badJsonTransport .SAFETY [reqFull, reqBare]
    [reqFull, reqBare] (List.Perm.refl _)
  exact ⟨h.1.trans rfl, h.2.2.1.trans rfl, h.2.1 0 (by decide) (by decide) (by decide)⟩

/-- `__post_init__` leaves a non-zero timestamp unchanged. -/
theorem postInit_timestamp_of_ne (r : EvaluationRequest) (g : String) (nw : Int)
    (h : r.timestamp ≠ 0) :
    (EvaluationRequest.postInit r g nw).timestamp = r.timestamp := by
  unfold EvaluationRequest.postInit
  by_cases h1 : r.trace_id.isEmpty <;> simp [h1, h]

/-- C8 counterexample: the claim "every EvaluationRequest constructed
without an explicit timestamp gets the local-adjusted UTC+offset
milliseconds" fails on the code.  With the clock at 1000000 UTC ms and a
3600000 ms local offset, `create_evaluation_request` called without a
timestamp but with `use_local_timestamp=False` stores 1000000 — and so does
`EvaluationRequest.__post_init__` when default-filling a falsy timestamp —
while the local-adjusted value is 4600000. -/
theorem claim_C8_counterexample :
    (createEvaluationRequest cfgW ambW
        { prompt := "p", response := none, trace_id := some "t",
          timestamp := none, explanation := none, score := none,
          project_name := none, use_local_timestamp := false }).timestamp = 1000000
    ∧ (EvaluationRequest.make
        { prompt := "p", trace_id := "t", timestamp := 0, response := none,
          explanation := none, score := none, project_name := none }
        "gid" 1000000).timestamp = 1000000
    ∧ ambW.utcMillis + ambW.offsetMillis = 4600000
    ∧ (1000000 : Int) ≠ 4600000 :=
  ⟨rfl, rfl, rfl, by decide⟩

/-- C8 (amended): a request built by `create_evaluation_request` with no
timestamp gets UTC millis + local offset millis only when
`use_local_timestamp` is true (the default); with `use_local_timestamp`
false, and likewise when `__post_init__` itself default-fills a falsy
timestamp, the plain (non-adjusted) UTC milliseconds are stored. -/
theorem claim_C8_amended (cfg : EvaluationConfig) (amb : Ambient)
    (d : RequestData) (hts : d.timestamp = none) :
    (d.use_local_timestamp = true → amb.utcMillis + amb.offsetMillis ≠ 0 →
      (createEvaluationRequest cfg amb d).timestamp
        = amb.utcMillis + amb.offsetMillis)
    ∧ (d.use_local_timestamp = false → amb.utcMillis ≠ 0 →
      (createEvaluationRequest cfg amb d).timestamp = amb.utcMillis)
    ∧ (∀ (r : EvaluationRequest) (g : String) (nw : Int), r.timestamp = 0 →
      (EvaluationRequest.postInit r g nw).timestamp = nw) := by
  have hts2 : (getTraceEvalTimestamps amb.utcMillis amb.offsetMillis).2
      = amb.utcMillis + amb.offsetMillis := by
    unfold getTraceEvalTimestamps
    by_cases ho : amb.offsetMillis = 0 <;> simp [ho]
  refine ⟨?_, ?_, ?_⟩
  · intro hl hnz
    have hkey : createEvaluationRequest cfg amb d
        = EvaluationRequest.make
          { prompt := d.prompt
            trace_id := orElseStr d.trace_id amb.genId
            timestamp := (getTraceEvalTimestamps amb.utcMillis amb.offsetMillis).2
            response := d.response, explanation := d.explanation
            score := d.score
            project_name := some (orElseStr d.project_name cfg.project_name) }
          amb.genId2 amb.utcMillis := by
      simp [createEvaluationRequest, hts, hl]
    rw [hkey, EvaluationRequest.make, postInit_timestamp_of_ne]
    · exact hts2
    · show (getTraceEvalTimestamps amb.utcMillis amb.offsetMillis).2 ≠ 0
      rw [hts2]
      exact hnz
  · intro hl hnz
    have hkey : createEvaluationRequest cfg amb d
        = EvaluationRequest.make
          { prompt := d.prompt
            trace_id := orElseStr d.trace_id amb.genId
            timestamp := amb.utcMillis
            response := d.response, explanation := d.explanation
            score := d.score
            project_name := some (orElseStr d.project_name cfg.project_name) }
          amb.genId2 amb.utcMillis := by
      simp [createEvaluationRequest, hts, hl]
    rw [hkey, EvaluationRequest.make, postInit_timestamp_of_ne]
    · exact hnz
  · intro r g nw h
    unfold EvaluationRequest.postInit
    by_cases h1 : r.trace_id.isEmpty <;> simp [h1, h]

/-- C8 witness for the amended claim: under `ambW` (UTC 1000000 ms, offset
3600000 ms) the default path stores 4600000, the `use_local_timestamp=False`
path stores 1000000, and `__post_init__` fills a zero timestamp with the
plain clock reading. -/
theorem claim_C8_amended_witness :
    (createEvaluationRequest cfgW ambW
        { prompt := "p", response := none, trace_id := some "t",
          timestamp := none, explanation := none, score := none,
          project_name := none, use_local_timestamp := true }).timestamp = 4600000
    ∧ (createEvaluationRequest cfgW ambW
        { prompt := "p", response := none, trace_id := some "t",
          timestamp := none, explanation := none, score := none,
          project_name := none, use_local_timestamp := false }).timestamp = 1000000
    ∧ (EvaluationRequest.postInit
        { prompt := "p", trace_id := "t", timestamp := 0, response := none,
          explanation := none, score := none, project_name := none }
        "gid" 1700000000000).timestamp = 1700000000000 := by
  have h := claim_C8_amended cfgW ambW
    { prompt := "p", response := none, trace_id := some "t",
      timestamp := none, explanation := none, score := none,
      project_name := none, use_local_timestamp := true } rfl
  have h2 := claim_C8_amended cfgW ambW
    { prompt := "p", response := none, trace_id := some "t",
      timestamp := none, explanation := none, score := none,
      project_name := none, use_local_timestamp := false } rfl
  exact ⟨(h.1 rfl (by decide)).trans (by decide),
         (h2.2.1 rfl (by decide)).trans (by decide),
         h.2.2 _ "gid" 1700000000000 rfl⟩

/-- The grouping fold of `evaluate_mixed_batch`, from any accumulator,
appends exactly the by-type filtered entries in submission order. -/
theorem foldl_groupStep (l : List (Option EvaluationType × EvaluationRequest)) :
    ∀ (a b c : List EvaluationRequest),
      l.foldl groupStep (a, b, c)
        = (a ++ l.filterMap selSafety, b ++ l.filterMap selHalluBias,
           c ++ l.filterMap selExterHallu) := by
  induction l with
  | nil =>
      intro a b c
      simp
  | cons hd tl ih =>
      intro a b c
      rcases hd with ⟨ty, r⟩
      rw [List.foldl_cons]
      rcases ty with _ | ty
      · simp only [groupStep, selSafety, selHalluBias, selExterHallu,
          List.filterMap_cons]
        exact ih a b c
      · cases ty <;>
          simp [groupStep, selSafety, selHalluBias, selExterHallu,
            List.filterMap_cons, ih]

/-- The grouping loop equals by-type filtering of the built entries. -/
theorem groupRequests_eq (l : List (Option EvaluationType × EvaluationRequest)) :
    groupRequests l
      = (l.filterMap selSafety, l.filterMap selHalluBias,
         l.filterMap selExterHallu) := by
  unfold groupRequests
  rw [foldl_groupStep]
  simp

/-- C6: `evaluate_mixed_batch` groups the built requests by type (exactly
the by-type filters of the submission sequence), returns one response per
grouped request with the groups contributing in the fixed order SAFETY,
HALLUCINATION_BIAS, EXTERNAL_HALLUCINATION (empty groups contributing
nothing), and its transport-call log splits into a SAFETY-endpoint segment,
then a bias-hallu segment, then an exter-hallu segment — so every SAFETY
call precedes every EXTERNAL_HALLUCINATION call. -/
theorem claim_C6 (cfg : EvaluationConfig) (ambs : Nat → Ambient)
    (transport : Transport) (configs : List MixedConfig)
    (orderS orderH orderE : List EvaluationRequest)
    (hS : orderS.Perm (groupRequests (mixedBuilt cfg ambs configs)).1)
    (hH : orderH.Perm (groupRequests (mixedBuilt cfg ambs configs)).2.1)
    (hE : orderE.Perm (groupRequests (mixedBuilt cfg ambs configs)).2.2) :
    (groupRequests (mixedBuilt cfg ambs configs)
      = ((mixedBuilt cfg ambs configs).filterMap selSafety,
         (mixedBuilt cfg ambs configs).filterMap selHalluBias,
         (mixedBuilt cfg ambs configs).filterMap selExterHallu))
    ∧ (evaluateMixedBatch cfg ambs transport configs orderS orderH orderE).1.length
        = (groupRequests (mixedBuilt cfg ambs configs)).1.length
          + (groupRequests (mixedBuilt cfg ambs configs)).2.1.length
          + (groupRequests (mixedBuilt cfg ambs configs)).2.2.length
    ∧ ∃ cS cH cE,
        (evaluateMixedBatch cfg ambs transport configs orderS orderH orderE).2
          = cS ++ cH ++ cE
        ∧ (∀ x ∈ cS, x = cfg.safety_endpoint)
        ∧ (∀ x ∈ cH, x = cfg.hallubias_endpoint)
        ∧ (∀ x ∈ cE, x = cfg.exterhallu_endpoint) := by
  refine ⟨groupRequests_eq _, ?_, ?_⟩
  · show ((if (groupRequests (mixedBuilt cfg ambs configs)).1.isEmpty
        then (([] : List EvaluationResponse), ([] : List String))
        else evaluateBatch cfg transport .SAFETY orderS).1
      ++ (if (groupRequests (mixedBuilt cfg ambs configs)).2.1.isEmpty
        then (([] : List EvaluationResponse), ([] : List String))
        else evaluateBatch cfg transport .HALLUCINATION_BIAS orderH).1
      ++ (if (groupRequests (mixedBuilt cfg ambs configs)).2.2.isEmpty
        then (([] : List EvaluationResponse), ([] : List String))
        else evaluateBatch cfg transport .EXTERNAL_HALLUCINATION orderE).1).length
      = _
    rw [List.length_append, List.length_append]
    have lS : (if (groupRequests (mixedBuilt cfg ambs configs)).1.isEmpty
        then (([] : List EvaluationResponse), ([] : List String))
        else evaluateBatch cfg transport .SAFETY orderS).1.length
        = (groupRequests (mixedBuilt cfg ambs configs)).1.length := by
      by_cases h : (groupRequests (mixedBuilt cfg ambs configs)).1.isEmpty
      · rw [if_pos h]
        simp [List.isEmpty_iff.mp h]
      · rw [if_neg h, evaluateBatch_length_eq]
        exact hS.length_eq
    have lH : (if (groupRequests (mixedBuilt cfg ambs configs)).2.1.isEmpty
        then (([] : List EvaluationResponse), ([] : List String))
        else evaluateBatch cfg transport .HALLUCINATION_BIAS orderH).1.length
        = (groupRequests (mixedBuilt cfg ambs configs)).2.1.length := by
      by_cases h : (groupRequests (mixedBuilt cfg ambs configs)).2.1.isEmpty
      · rw [if_pos h]
        simp [List.isEmpty_iff.mp h]
      · rw [if_neg h, evaluateBatch_length_eq]
        exact hH.length_eq
    have lE : (if (groupRequests (mixedBuilt cfg ambs configs)).2.2.isEmpty
        then (([] : List EvaluationResponse), ([] : List String))
        else evaluateBatch cfg transport .EXTERNAL_HALLUCINATION orderE).1.length
        = (groupRequests (mixedBuilt cfg ambs configs)).2.2.length := by
      by_cases h : (groupRequests (mixedBuilt cfg ambs configs)).2.2.isEmpty
      · rw [if_pos h]
        simp [List.isEmpty_iff.mp h]
      · rw [if_neg h, evaluateBatch_length_eq]
        exact hE.length_eq
    rw [lS, lH, lE]
  · refine ⟨(if (groupRequests (mixedBuilt cfg ambs configs)).1.isEmpty
        then (([] : List EvaluationResponse), ([] : List String))
        else evaluateBatch cfg transport .SAFETY orderS).2,
      (if (groupRequests (mixedBuilt cfg ambs configs)).2.1.isEmpty
        then (([] : List EvaluationResponse), ([] : List String))
        else evaluateBatch cfg transport .HALLUCINATION_BIAS orderH).2,
      (if (groupRequests (mixedBuilt cfg ambs configs)).2.2.isEmpty
        then (([] : List EvaluationResponse), ([] : List String))
        else evaluateBatch cfg transport .EXTERNAL_HALLUCINATION orderE).2,
      rfl, ?_, ?_, ?_⟩
    · intro x hx
      by_cases h : (groupRequests (mixedBuilt cfg ambs configs)).1.isEmpty
      · rw [if_pos h] at hx
        simp at hx
      · rw [if_neg h] at hx
        exact evaluateBatch_calls_mem cfg transport .SAFETY orderS x hx
    · intro x hx
      by_cases h : (groupRequests (mixedBuilt cfg ambs configs)).2.1.isEmpty
      · rw [if_pos h] at hx
        simp at hx
      · rw [if_neg h] at hx
        exact evaluateBatch_calls_mem cfg transport .HALLUCINATION_BIAS orderH x hx
    · intro x hx
      by_cases h : (groupRequests (mixedBuilt cfg ambs configs)).2.2.isEmpty
      · rw [if_pos h] at hx
        simp at hx
      · rw [if_neg h] at hx
        exact evaluateBatch_calls_mem cfg transport .EXTERNAL_HALLUCINATION orderE x hx

/-- C6 witness: one SAFETY config and one EXTERNAL_HALLUCINATION config —
two responses come back and the call log is exactly the safety endpoint
followed by the exter-hallu endpoint. -/
theorem claim_C6_witness :
    (evaluateMixedBatch cfgW (fun _ => ambW) okTransport mixedConfigsW
        (groupRequests (mixedBuilt cfgW (fun _ => ambW) mixedConfigsW)).1
        (groupRequests (mixedBuilt cfgW (fun _ => ambW) mixedConfigsW)).2.1
        (groupRequests (mixedBuilt cfgW (fun _ => ambW) mixedConfigsW)).2.2).1.length
      = 2
    ∧ (evaluateMixedBatch cfgW (fun _ => ambW) okTransport mixedConfigsW
        (groupRequests (mixedBuilt cfgW (fun _ => ambW) mixedConfigsW)).1
        (groupRequests (mixedBuilt cfgW (fun _ => ambW) mixedConfigsW)).2.1
        (groupRequests (mixedBuilt cfgW (fun _ => ambW) mixedConfigsW)).2.2).2
      = [cfgW.safety_endpoint, cfgW.exterhallu_endpoint] := by
  have h := claim_C6 cfgW (fun _ => ambW) okTransport mixedConfigsW
    (groupRequests (mixedBuilt cfgW (fun _ => ambW) mixedConfigsW)).1
    (groupRequests (mixedBuilt cfgW (fun _ => ambW) mixedConfigsW)).2.1
    (groupRequests (mixedBuilt cfgW (fun _ => ambW) mixedConfigsW)).2.2
    (List.Perm.refl _) (List.Perm.refl _) (List.Perm.refl _)
  exact ⟨h.2.1.trans (by decide), by decide⟩

end IFTracer
